import Mathlib

/-!
Verification of the leads-crm webhook/CRM service against its specification.

The JavaScript source is shallowly embedded: each relevant function of the
repository is translated into an executable Lean definition, with JavaScript
runtime behaviour (truthiness, optional values, thrown exceptions) made
explicit.  Strings stand for JS strings, `Option` encodes
`undefined`/`null`, and fallible code returns `Except`.
-/

set_option autoImplicit false

/-! ## JavaScript value and truthiness model -/

/-- Subset of JavaScript values that occur in the request bodies handled by
the service (JSON scalars). -/
inductive JVal where
  | str (s : String)
  | num (n : Int)
  | boolv (b : Bool)
  | nullv
deriving DecidableEq, Repr

/-- JavaScript truthiness of a `JVal`. -/
def JVal.truthy : JVal → Bool
  | .str s => !s.isEmpty
  | .num n => n != 0
  | .boolv b => b
  | .nullv => false

/-- JavaScript `String(v)` coercion for the values above. -/
def JVal.toStr : JVal → String
  | .str s => s
  | .num n => toString n
  | .boolv b => if b then "true" else "false"
  | .nullv => "null"

/-- JavaScript `a || b` on an optional string `a` (where `none` models
`undefined`/`null` and the empty string is falsy). -/
def jsOr (a b : Option String) : Option String :=
  match a with
  | some s => if s.isEmpty then b else some s
  | none => b

/-- JavaScript `a || null` on an optional string. -/
def jsOrNull (a : Option String) : Option String :=
  jsOr a none

/-- Truthiness of an optional string (`undefined` and the empty string are
falsy). -/
def optTruthy : Option String → Bool
  | some s => !s.isEmpty
  | none => false

/-- JS whitespace characters (the ASCII part of the \\s class and of
String.prototype.trim; the exotic Unicode spaces are out of scope). -/
def isJsSpace (c : Char) : Bool :=
  c = ' ' || c = '\t' || c = '\n' || c = '\r' || c = '\x0b' || c = '\x0c'

/-- ASCII lower-casing of one character (JS toLowerCase restricted to the
ASCII payloads this service sees). -/
def jsCharToLower (c : Char) : Char :=
  if 'A' ≤ c ∧ c ≤ 'Z' then Char.ofNat (c.toNat + 32) else c

/-- JS String.prototype.toLowerCase (ASCII model). -/
def jsToLower (s : String) : String :=
  ⟨s.data.map jsCharToLower⟩

/-- JS String.prototype.trim. -/
def jsTrim (s : String) : String :=
  ⟨((s.data.dropWhile isJsSpace).reverse.dropWhile isJsSpace).reverse⟩

/-- JS s.slice(0, n). -/
def jsSlice (s : String) (n : Nat) : String :=
  ⟨s.data.take n⟩

/-! ## Model of the Node `crypto` primitives used by the verifiers

HMAC-SHA256 itself is an external library primitive; the verifiers are
parameterised by a function `hmacHex : String → String → String` mapping
(secret, message) to the hex digest (64 hex characters for SHA-256). -/

/-- Errors thrown by the Node crypto primitives as used in the source. -/
inductive JsErr where
  /-- Thrown by `crypto.createHmac` when the key is `undefined`. -/
  | typeError
  /-- Thrown by `crypto.timingSafeEqual` when the buffer lengths differ. -/
  | rangeError
deriving DecidableEq, Repr

/-- Byte length of a string, for `Buffer.from(s)` length comparisons. -/
def strBytes (s : String) : Nat := s.utf8ByteSize

/-- Model of `crypto.timingSafeEqual(Buffer.from(a), Buffer.from(b))`:
throws a `RangeError` when the byte lengths differ, otherwise compares. -/
def timingSafeEqual (a b : String) : Except JsErr Bool :=
  if strBytes a ≠ strBytes b then .error .rangeError else .ok (a = b)

/-- Does the first list start with the second? -/
def listStartsWith : List Char → List Char → Bool
  | _, [] => true
  | [], _ :: _ => false
  | a :: as, b :: bs => a == b && listStartsWith as bs

/-- Removes the leftmost occurrence of `pat` from `s` (identity when
`pat` does not occur). -/
def dropFirstOcc (s pat : List Char) : List Char :=
  match s with
  | [] => []
  | c :: cs =>
    if pat.isEmpty then c :: cs
    else if listStartsWith (c :: cs) pat then (c :: cs).drop pat.length
    else c :: dropFirstOcc cs pat

/-- JavaScript `s.replace(pat, "")` with a plain-string pattern: removes the
first occurrence of `pat` only (`String.prototype.replace` with a string
pattern replaces a single occurrence). -/
def replaceFirst (s pat : String) : String :=
  ⟨dropFirstOcc s.data pat.data⟩

/-! ## Signature verifiers

Two generations of each verifier exist in the repository: a legacy variant
without guards (it can throw) and a current variant that guards the secret
and the digest length and wraps everything in try/catch. -/

/-- Legacy Meta verifier (meta webhook, first variant, lines 9-22):
checks only that the signature is present; `createHmac` with an unset
secret throws a `TypeError`, and `timingSafeEqual` on buffers of different
lengths throws a `RangeError`; neither is caught. -/
def metaVerifySignatureLegacy (hmacHex : String → String → String)
    (metaAppSecret : Option String) (payload : String)
    (signature : Option String) : Except JsErr Bool :=
  match signature with
  | none => .ok false
  | some sig =>
    if sig.isEmpty then .ok false
    else
      match metaAppSecret with
      | none => .error .typeError
      | some secret =>
        let expectedSignature := hmacHex secret payload
        let receivedSignature := replaceFirst sig "sha256="
        timingSafeEqual expectedSignature receivedSignature

/-- Current Meta verifier (meta webhook, second variant, lines 72-96):
returns false when the signature or the app secret is absent, guards the
digest lengths, and catches any remaining exception, so it always returns
a boolean. -/
def metaVerifySignature (hmacHex : String → String → String)
    (metaAppSecret : Option String) (payload : String)
    (signature : Option String) : Bool :=
  match signature, metaAppSecret with
  | none, _ => false
  | some _, none => false
  | some sig, some secret =>
    if sig.isEmpty then false
    else
      let expectedSignature := hmacHex secret payload
      let receivedSignature := replaceFirst sig "sha256="
      if expectedSignature.length ≠ receivedSignature.length then false
      else
        match timingSafeEqual expectedSignature receivedSignature with
        | .ok b => b
        | .error _ => false

/-- Legacy TikTok verifier (tiktok webhook, first variant, lines 8-20):
same shape as the legacy Meta verifier, without the prefix stripping. -/
def tiktokVerifySignatureLegacy (hmacHex : String → String → String)
    (tiktokAppSecret : Option String) (payload : String)
    (signature : Option String) : Except JsErr Bool :=
  match signature with
  | none => .ok false
  | some sig =>
    if sig.isEmpty then .ok false
    else
      match tiktokAppSecret with
      | none => .error .typeError
      | some secret =>
        let expectedSignature := hmacHex secret payload
        timingSafeEqual expectedSignature sig

/-- Current TikTok verifier (tiktok webhook, second variant, lines 162-186):
guards the secret, the signature and the digest lengths, and catches the
rest, so it always returns a boolean. -/
def tiktokVerifySignature (hmacHex : String → String → String)
    (tiktokAppSecret : Option String) (payload : String)
    (signature : Option String) : Bool :=
  match signature, tiktokAppSecret with
  | none, _ => false
  | some _, none => false
  | some sig, some secret =>
    if sig.isEmpty then false
    else
      let expectedSignature := hmacHex secret payload
      if expectedSignature.length ≠ sig.length then false
      else
        match timingSafeEqual expectedSignature sig with
        | .ok b => b
        | .error _ => false

/-- Tolerance used by the Snapchat timestamp check, in milliseconds. -/
def TIMESTAMP_TOLERANCE_MS : Int := 5 * 60 * 1000

/-- JavaScript `parseInt(s, 10)`: skips leading whitespace, reads an
optional sign and then a maximal run of decimal digits; yields `none`
(NaN) when no digit is read. -/
def parseIntJS (s : String) : Option Int :=
  let cs := s.data.dropWhile (fun c => c = ' ' || c = '\t' || c = '\n' || c = '\r')
  let (neg, cs) :=
    match cs with
    | '-' :: rest => (true, rest)
    | '+' :: rest => (false, rest)
    | _ => (false, cs)
  let digits := cs.takeWhile Char.isDigit
  if digits.isEmpty then none
  else
    let n : Nat := digits.foldl (fun acc c => acc * 10 + (c.toNat - '0'.toNat)) 0
    some (if neg then -(n : Int) else (n : Int))

/-- Current Snapchat verifier (src/src/webhooks/snapchat.webhook.js,
lines 12-45).  Rejects absent signature, timestamp or client secret;
rejects a parsed timestamp more than `TIMESTAMP_TOLERANCE_MS` away from
`now` (when `parseInt` yields NaN every comparison with it is false, so
the tolerance check does not reject); then compares the HMAC hex digest
of `timestamp.payload` in constant time, with a length guard and a
try/catch, so it always returns a boolean.  `now` is `Date.now()` in
epoch milliseconds. -/
def snapchatVerifySignature (hmacHex : String → String → String)
    (snapchatClientSecret : Option String) (now : Int) (payload : String)
    (signature timestamp : Option String) : Bool :=
  match signature, timestamp, snapchatClientSecret with
  | none, _, _ => false
  | some _, none, _ => false
  | some _, some _, none => false
  | some sig, some ts, some secret =>
    if sig.isEmpty || ts.isEmpty then false
    else
      let tooFar : Bool :=
        match parseIntJS ts with
        | some n => decide ((now - n * 1000).natAbs > TIMESTAMP_TOLERANCE_MS.natAbs)
        | none => false
      if tooFar then false
      else
        let signatureBaseString := ts ++ "." ++ payload
        let expectedSignature := hmacHex secret signatureBaseString
        if expectedSignature.length ≠ sig.length then false
        else
          match timingSafeEqual expectedSignature sig with
          | .ok b => b
          | .error _ => false

/-- Legacy Snapchat verifier (snapchat webhook, first variant, lines 8-21):
no timestamp tolerance check, no secret guard, no length guard, no
try/catch. -/
def snapchatVerifySignatureLegacy (hmacHex : String → String → String)
    (snapchatClientSecret : Option String) (payload : String)
    (signature timestamp : Option String) : Except JsErr Bool :=
  match signature, timestamp with
  | none, _ => .ok false
  | some _, none => .ok false
  | some sig, some ts =>
    if sig.isEmpty || ts.isEmpty then .ok false
    else
      match snapchatClientSecret with
      | none => .error .typeError
      | some secret =>
        let expectedSignature := hmacHex secret (ts ++ "." ++ payload)
        timingSafeEqual expectedSignature sig

/-- Meta GET verification endpoint (meta webhook, both variants):
compares `hub.mode` with the literal "subscribe" and `hub.verify_token`
with the configured token using strict equality (under which two absent
values are equal), answering 200 with the challenge on success and 403
otherwise.  The result is the HTTP status paired with the body sent. -/
def verifyWebhookMeta (envVerifyToken : Option String)
    (mode token challenge : Option String) : Nat × Option String :=
  if mode = some "subscribe" ∧ token = envVerifyToken then (200, challenge)
  else (403, none)

/-! ## Payload normalizers -/

/-- Result shape of the per-platform lead parsers.  A field of the result
is `some v` exactly when the corresponding key was assigned on the
JavaScript object (so `some ""` models an assigned empty string, while
`none` models an absent key, which matters for the object spread in the
upsert document). -/
structure ParsedLead where
  email : Option String := none
  phone : Option String := none
  customerName : Option String := none
  firstName : Option String := none
  lastName : Option String := none
  customFields : List (String × String) := []
deriving DecidableEq, Repr

/-- JavaScript object property assignment `obj[k] = v` on an insertion
ordered string map: overwrites in place when the key exists, appends
otherwise. -/
def setKey (m : List (String × String)) (k v : String) : List (String × String) :=
  if (m.lookup k).isSome then m.map (fun p => cond (p.1 == k) (k, v) p)
  else m ++ [(k, v)]

/-- Builds `[firstName, lastName].filter(Boolean).join(" ")`. -/
def joinNameParts (fn ln : Option String) : String :=
  String.intercalate " " (([fn, ln].filterMap id).filter (fun s => !s.isEmpty))

/-- Final step common to all parsers: if no truthy customerName was set
but a truthy firstName or lastName is present, synthesize customerName
from the non-empty parts joined by a single space. -/
def finalizeCustomerName (d : ParsedLead) : ParsedLead :=
  if !optTruthy d.customerName && (optTruthy d.firstName || optTruthy d.lastName) then
    { d with customerName := some (joinNameParts d.firstName d.lastName) }
  else d

/-- One element of the Meta `field_data` array: a field name and a
`values` array (possibly absent). -/
structure MetaField where
  name : String
  values : Option (List String) := none
deriving DecidableEq, Repr

/-- Field names recognized by the Meta normalizer's switch. -/
def metaRecognizedNames : List String :=
  ["email", "phone_number", "phone", "full_name", "first_name", "last_name"]

/-- One iteration of the Meta `field_data` loop (meta webhook,
parseFieldData): switch on the lower-cased name, defaulting into
customFields keyed by the original name.  The value read is
`field.values?.[0] || ""`. -/
def parseFieldDataStep (d : ParsedLead) (f : MetaField) : ParsedLead :=
  let name := jsToLower f.name
  let value := (jsOr ((f.values.getD []).head?) (some "")).getD ""
  if name = "email" then { d with email := some value }
  else if name = "phone_number" ∨ name = "phone" then { d with phone := some value }
  else if name = "full_name" then { d with customerName := some value }
  else if name = "first_name" then { d with firstName := some value }
  else if name = "last_name" then { d with lastName := some value }
  else { d with customFields := setKey d.customFields f.name value }

/-- Meta normalizer parseFieldData (meta webhook, lines 166-207): absent
field array yields the empty result; otherwise fold the switch over the
fields and synthesize customerName. -/
def parseFieldData (fieldData : Option (List MetaField)) : ParsedLead :=
  match fieldData with
  | none => {}
  | some fds => finalizeCustomerName (fds.foldl parseFieldDataStep {})

/-- One element of the Snapchat `form_responses` array. -/
structure SnapResponse where
  question_type : Option String := none
  question_id : Option String := none
  question : Option String := none
  answer : Option String := none
deriving DecidableEq, Repr

/-- Question types recognized by the Snapchat normalizer's switch. -/
def snapRecognizedTypes : List String :=
  ["email", "phone", "phone_number", "name", "full_name", "first_name", "last_name"]

/-- Custom-field key used by the Snapchat default branch:
`questionId || response.question` (an absent question produces the
literal property key "undefined"). -/
def snapKey (r : SnapResponse) : String :=
  let questionId := r.question_id.getD ""
  if questionId.isEmpty then r.question.getD "undefined" else questionId

/-- One iteration of the Snapchat responses loop: switch on the
lower-cased question_type; the default branch stores the answer in
customFields under the key of snapKey. -/
def parseSnapchatStep (d : ParsedLead) (r : SnapResponse) : ParsedLead :=
  let questionType := ((r.question_type.map jsToLower) |> jsOrNull |>.getD "")
  let answer := (jsOr r.answer (some "")).getD ""
  if questionType = "email" then { d with email := some answer }
  else if questionType = "phone" ∨ questionType = "phone_number" then { d with phone := some answer }
  else if questionType = "name" ∨ questionType = "full_name" then { d with customerName := some answer }
  else if questionType = "first_name" then { d with firstName := some answer }
  else if questionType = "last_name" then { d with lastName := some answer }
  else { d with customFields := setKey d.customFields (snapKey r) answer }

/-- Snapchat normalizer parseSnapchatLead
(src/src/webhooks/snapchat.webhook.js, lines 50-94): reads
`form_responses || responses || []`, folds the switch, synthesizes
customerName. -/
def parseSnapchatLead (form_responses responses : Option (List SnapResponse)) : ParsedLead :=
  let rs := (form_responses.orElse (fun _ => responses)).getD []
  finalizeCustomerName (rs.foldl parseSnapchatStep {})

/-! ## Lead data model and the Snapchat persistence step -/

/-- Canonical Lead document (models/Lead schema).  Dates are epoch
milliseconds.  Defaults mirror the schema defaults applied on insert
(status "new", customFields empty). -/
structure Lead where
  platform : String := ""
  platformLeadId : String := ""
  formId : Option String := none
  formName : Option String := none
  adId : Option String := none
  adName : Option String := none
  adsetId : Option String := none
  adsetName : Option String := none
  campaignId : Option String := none
  campaignName : Option String := none
  pageId : Option String := none
  customerName : Option String := none
  firstName : Option String := none
  lastName : Option String := none
  email : Option String := none
  phone : Option String := none
  customFields : List (String × String) := []
  status : String := "new"
  notes : Option String := none
  platformCreatedAt : Option Int := none
  receivedAt : Int := 0
deriving DecidableEq, Repr

/-- Does a stored lead match the dedup key (platform, platformLeadId)? -/
def keyMatch (platform pid : String) (l : Lead) : Bool :=
  l.platform == platform && l.platformLeadId == pid

/-- Number of stored leads carrying the given key. -/
def countKey (store : List Lead) (platform pid : String) : Nat :=
  (store.filter (keyMatch platform pid)).length

/-- First stored lead carrying the given key. -/
def findByKey (store : List Lead) (platform pid : String) : Option Lead :=
  store.find? (keyMatch platform pid)

/-- Model of Mongo `findOneAndUpdate(filter, update, upsert:true, new:true)`
on the unique key (platform, platformLeadId): the first matching document
is replaced by `mk` applied to it; when none matches, `mk` applied to a
fresh document (schema defaults) is inserted.  Returns the new store and
the returned (post-update) document. -/
def upsertByKey (platform pid : String) (mk : Lead → Lead) :
    List Lead → List Lead × Lead
  | [] => ([mk {}], mk {})
  | l :: ls =>
    if keyMatch platform pid l then (mk l :: ls, mk l)
    else
      let r := upsertByKey platform pid mk ls
      (l :: r.1, r.2)

/-- Snapchat lead payload shape as read by the handler. -/
structure SnapLeadData where
  lead_id : Option String := none
  id : Option String := none
  form_id : Option String := none
  form_name : Option String := none
  ad_id : Option String := none
  ad_name : Option String := none
  ad_squad_id : Option String := none
  adset_id : Option String := none
  ad_squad_name : Option String := none
  adset_name : Option String := none
  campaign_id : Option String := none
  campaign_name : Option String := none
  created_at : Option Int := none
  form_responses : Option (List SnapResponse) := none
  responses : Option (List SnapResponse) := none
deriving DecidableEq, Repr

/-- Update document built by the Snapchat handler
(src/src/webhooks/snapchat.webhook.js, lines 147-167) applied to the
matched document `base` (or the fresh document on insert).  The object
spread of parsedData only overwrites the contact keys that the parser
actually assigned; customFields is always assigned by the parser, so it
is always overwritten.  `created_at ? new Date(created_at) : new Date()`
and `receivedAt: new Date()` use the processing time `now`. -/
def snapchatUpsertDoc (d : SnapLeadData) (leadId : String) (now : Int)
    (base : Lead) : Lead :=
  let p := parseSnapchatLead d.form_responses d.responses
  { base with
    platform := "snapchat"
    platformLeadId := leadId
    formId := jsOrNull d.form_id
    formName := jsOrNull d.form_name
    adId := jsOrNull d.ad_id
    adName := jsOrNull d.ad_name
    adsetId := jsOr d.ad_squad_id (jsOrNull d.adset_id)
    adsetName := jsOr d.ad_squad_name (jsOrNull d.adset_name)
    campaignId := jsOrNull d.campaign_id
    campaignName := jsOrNull d.campaign_name
    email := p.email.or base.email
    phone := p.phone.or base.phone
    customerName := p.customerName.or base.customerName
    firstName := p.firstName.or base.firstName
    lastName := p.lastName.or base.lastName
    customFields := p.customFields
    platformCreatedAt := some (d.created_at.getD now)
    receivedAt := now }

/-- Persistence step of the Snapchat webhook handler: extract the
platform lead id (`leadData.lead_id || leadData.id`); when it is missing
the event is logged and dropped (store unchanged); otherwise upsert on
(platform="snapchat", platformLeadId). -/
def snapchatPersist (store : List Lead) (d : SnapLeadData) (now : Int) :
    List Lead × Option Lead :=
  match jsOr d.lead_id d.id with
  | none => (store, none)
  | some leadId =>
    if leadId.isEmpty then (store, none)
    else
      let r := upsertByKey "snapchat" leadId (snapchatUpsertDoc d leadId now) store
      (r.1, some r.2)

/-! ## Leads service (src/src/services/leads.service.js) -/

/-- Error produced by createError(message, status). -/
structure ApiError where
  message : String
  status : Nat
deriving DecidableEq, Repr

/-- Is a character an ASCII hexadecimal digit? -/
def isHexChar (c : Char) : Bool :=
  c.isDigit || ('a' ≤ c && c ≤ 'f') || ('A' ≤ c && c ≤ 'F')

/-- Model of mongoose.Types.ObjectId.isValid: a 24-character hex string,
or any string of 12 bytes (interpretable as a raw 12-byte id). -/
def isValidObjectId (id : String) : Bool :=
  (id.length == 24 && id.data.all isHexChar) || strBytes id == 12

/-- Store of leads keyed by their Mongo document id. -/
abbrev LeadStore : Type := List (String × Lead)

/-- Service getLeadById (src/src/services/leads.service.js, lines 93-103):
a falsy or invalid id throws createError("Invalid lead ID format", 400);
a valid id with no document throws createError("Lead not found", 404);
otherwise the lead is returned. -/
def getLeadById (store : LeadStore) (id : Option String) : Except ApiError Lead :=
  match id with
  | none => .error ⟨"Invalid lead ID format", 400⟩
  | some i =>
    if i.isEmpty || !isValidObjectId i then .error ⟨"Invalid lead ID format", 400⟩
    else
      match List.lookup i store with
      | none => .error ⟨"Lead not found", 404⟩
      | some l => .ok l

/-- Allow-list of mutable fields in updateLead. -/
def allowedFields : List String := ["status", "notes", "customerName", "email", "phone"]

/-- Valid workflow statuses. -/
def validStatuses : List String := ["new", "contacted", "qualified", "converted", "lost"]

/-- Service sanitizeString (lines 23-26): non-strings pass through;
strings are trimmed and sliced to at most 1000 characters. -/
def sanitizeString : JVal → JVal
  | .str s => .str (jsSlice (jsTrim s) 1000)
  | v => v

/-- Character class of the email regex: anything but whitespace and `@`. -/
def isEmailChar (c : Char) : Bool :=
  !isJsSpace c && c ≠ '@'

/-- Decision procedure for the service's email regex
(one or more non-space-non-at characters, an at sign, one or more, a dot,
one or more).  A string matches iff it contains exactly one at sign with
a non-empty local part, no whitespace, and the domain part has a dot at
some position that is neither first nor last. -/
def emailRegexTest (s : String) : Bool :=
  match s.data.splitOn '@' with
  | [a, rest] =>
    !a.isEmpty && a.all isEmailChar && rest.all isEmailChar &&
      ((rest.drop 1).dropLast.contains '.')
  | _ => false

/-- JS validStatuses.includes(updateData[field]): strict equality, so
only a string value equal to one of the five statuses passes. -/
def statusIncluded (v : JVal) : Bool :=
  match v with
  | .str s => validStatuses.contains s
  | _ => false

/-- Message thrown for an invalid status value. -/
def invalidStatusMsg : String :=
  "Invalid status. Must be one of: " ++ String.intercalate ", " validStatuses

/-- Validation/filtering loop of updateLead (lines 122-142): iterate the
allow-list in order; skip absent fields; an invalid status or a truthy
email failing the regex throws; accepted values are sanitized into the
filtered update document. -/
def validateUpdateFields (fields : List String)
    (updateData : List (String × JVal)) : Except ApiError (List (String × JVal)) :=
  match fields with
  | [] => .ok []
  | f :: rest =>
    match List.lookup f updateData with
    | none => validateUpdateFields rest updateData
    | some v =>
      if f == "status" && !statusIncluded v then
        .error ⟨invalidStatusMsg, 400⟩
      else if f == "email" && v.truthy && !emailRegexTest v.toStr then
        .error ⟨"Invalid email format", 400⟩
      else
        match validateUpdateFields rest updateData with
        | .error e => .error e
        | .ok tail => .ok ((f, sanitizeString v) :: tail)

/-- Applying one entry of the filtered update document to a stored lead,
with the schema setters (trim on the contact strings, additionally
lowercase on email) that findByIdAndUpdate runs. -/
def applyUpdateField (l : Lead) (kv : String × JVal) : Lead :=
  if kv.1 = "status" then { l with status := kv.2.toStr }
  else if kv.1 = "notes" then { l with notes := some kv.2.toStr }
  else if kv.1 = "customerName" then { l with customerName := some (jsTrim kv.2.toStr) }
  else if kv.1 = "email" then { l with email := some (jsToLower (jsTrim kv.2.toStr)) }
  else if kv.1 = "phone" then { l with phone := some (jsTrim kv.2.toStr) }
  else l

/-- Mongo $set of the filtered update document on a stored lead. -/
def applyUpdate (l : Lead) (fd : List (String × JVal)) : Lead :=
  fd.foldl applyUpdateField l

/-- Service updateLead (src/src/services/leads.service.js, lines 108-158).
The result pairs the outcome with the store after the call: every
validation failure happens before findByIdAndUpdate, so the store is
returned untouched on any error. -/
def updateLead (store : LeadStore) (id : Option String)
    (updateData : Option (List (String × JVal))) :
    Except ApiError Lead × LeadStore :=
  match id with
  | none => (.error ⟨"Invalid lead ID format", 400⟩, store)
  | some i =>
    if i.isEmpty || !isValidObjectId i then
      (.error ⟨"Invalid lead ID format", 400⟩, store)
    else
      match updateData with
      | none => (.error ⟨"Update data is required", 400⟩, store)
      | some ud =>
        match validateUpdateFields allowedFields ud with
        | .error e => (.error e, store)
        | .ok fd =>
          if fd.isEmpty then (.error ⟨"No valid fields to update", 400⟩, store)
          else
            match List.lookup i store with
            | none => (.error ⟨"Lead not found", 404⟩, store)
            | some l =>
              let l' := applyUpdate l fd
              (.ok l', store.map (fun p => if p.1 = i then (i, l') else p))

/-! ## Meta Graph API fetchers with retry (meta webhook, lines 43-67 and
119-161) -/

/-- Shape of an axios error as inspected by withRetry:
`error.response?.status`, `error.code`, the data error payload and the
message. -/
structure AxiosError where
  responseStatus : Option Nat := none
  code : Option String := none
  responseDataError : Option String := none
  message : String := ""
deriving DecidableEq, Repr

/-- Retry predicate of withRetry: a 5xx response status, or a
connection-reset or timeout error code (an absent status makes the
`>= 500` comparison false). -/
def isRetryable (e : AxiosError) : Bool :=
  (match e.responseStatus with
   | some s => decide (500 ≤ s)
   | none => false)
  || e.code == some "ECONNRESET" || e.code == some "ETIMEDOUT"

/-- Base retry delay in milliseconds. -/
def RETRY_DELAY_MS : Nat := 1000

/-- Maximum number of attempts. -/
def MAX_RETRIES : Nat := 3

/-- Trace of one withRetry call: final outcome, number of attempts made,
and the backoff delays slept between attempts. -/
structure RetryTrace (α : Type) where
  result : Except AxiosError α
  attemptsUsed : Nat
  delays : List Nat
deriving Repr

/-- Loop body of withRetry.  The attempt counter and the remaining
iteration count satisfy attempt + remaining = retries + 1, so
`attempt === retries` is `remaining = 1`.  `f n` is the outcome of the
n-th call of the wrapped thunk. -/
def withRetryAux {α : Type} (f : Nat → Except AxiosError α) :
    Nat → Nat → RetryTrace α
  | 0, _ => ⟨.error ⟨none, none, none, "loop not entered"⟩, 0, []⟩
  | remaining + 1, attempt =>
    match f attempt with
    | .ok v => ⟨.ok v, 1, []⟩
    | .error e =>
      if !isRetryable e || remaining == 0 then ⟨.error e, 1, []⟩
      else
        let delay := RETRY_DELAY_MS * 2 ^ (attempt - 1)
        let t := withRetryAux f remaining (attempt + 1)
        ⟨t.result, t.attemptsUsed + 1, delay :: t.delays⟩

/-- Retry wrapper withRetry (meta webhook, lines 43-67) with the default
retry budget. -/
def withRetry {α : Type} (f : Nat → Except AxiosError α)
    (retries : Nat := MAX_RETRIES) : RetryTrace α :=
  withRetryAux f retries 1

/-- Wrapped error message produced by the fetchLeadDetails catch clause
(the error details are the response data error when present, else the
error message). -/
def leadDetailsFailureMsg (e : AxiosError) : String :=
  "Failed to fetch lead details: " ++ (e.responseDataError.getD e.message)

/-- Meta fetchLeadDetails (meta webhook, lines 119-137): runs the GET
under withRetry; an exhausted or non-retryable failure is re-thrown as a
wrapped error, so it propagates to the caller. -/
def fetchLeadDetails {α : Type} (f : Nat → Except AxiosError α) :
    Except String α :=
  match (withRetry f).result with
  | .ok v => .ok v
  | .error e => .error (leadDetailsFailureMsg e)

/-- Meta fetchFormDetails (meta webhook, lines 142-161): a falsy form id
short-circuits to null without any attempt; otherwise runs under
withRetry and catches any failure into null. -/
def fetchFormDetails {α : Type} (formId : Option String)
    (f : Nat → Except AxiosError α) : Option α :=
  match jsOrNull formId with
  | none => none
  | some _ =>
    match (withRetry f).result with
    | .ok v => some v
    | .error _ => none

/-! ## Webhook handler response behaviour (all three platforms, both
handler generations) -/

/-- Outcome of the enrich/normalize/persist phase of a handler run,
collapsed to what the response and log code can observe: success, or a
thrown error carrying a message. -/
inductive ProcOutcome where
  | success
  | failure (message : String)
deriving DecidableEq, Repr

/-- HTTP response sent to the platform: status plus the JSON body fields
used by these handlers. -/
structure HttpResponse where
  status : Nat
  bodyReceived : Option Bool := none
  bodyCode : Option Nat := none
  bodyMessage : Option String := none
  bodyError : Option String := none
deriving DecidableEq, Repr

/-- Observable result of one handler run: the response sent and the
webhook log terminal state. -/
structure HandlerResult where
  response : HttpResponse
  logError : Option String := none
  logProcessed : Bool := false
deriving DecidableEq, Repr

/-- Legacy Meta POST handler (meta webhook, first variant, lines 139-216),
projected onto response and log: signature rejection in production
answers 401; success answers 200 with received:true; a processing
failure still answers 200 but the body additionally carries the error
message. -/
def metaHandleWebhookLegacy (production sigOk : Bool)
    (proc : ProcOutcome) : HandlerResult :=
  if production && !sigOk then
    { response := { status := 401, bodyError := some "Invalid signature" }
      logError := some "Invalid signature" }
  else
    match proc with
    | .success =>
      { response := { status := 200, bodyReceived := some true }
        logProcessed := true }
    | .failure m =>
      { response := { status := 200, bodyReceived := some true, bodyError := some m }
        logError := some m }

/-- Legacy TikTok POST handler (tiktok webhook, first variant, lines
77-149), projected onto response and log. -/
def tiktokHandleWebhookLegacy (production sigOk : Bool)
    (proc : ProcOutcome) : HandlerResult :=
  if production && !sigOk then
    { response := { status := 401, bodyError := some "Invalid signature" }
      logError := some "Invalid signature" }
  else
    match proc with
    | .success =>
      { response := { status := 200, bodyCode := some 0, bodyMessage := some "success" }
        logProcessed := true }
    | .failure m =>
      { response := { status := 200, bodyCode := some 0, bodyMessage := some "success",
                      bodyError := some m }
        logError := some m }

/-- Legacy Snapchat POST handler (snapchat webhook, first variant, lines
75-144), projected onto response and log. -/
def snapchatHandleWebhookLegacy (production sigOk : Bool)
    (proc : ProcOutcome) : HandlerResult :=
  if production && !sigOk then
    { response := { status := 401, bodyError := some "Invalid signature" }
      logError := some "Invalid signature" }
  else
    match proc with
    | .success =>
      { response := { status := 200, bodyReceived := some true }
        logProcessed := true }
    | .failure m =>
      { response := { status := 200, bodyReceived := some true, bodyError := some m }
        logError := some m }

/-- Current Snapchat POST handler (src/src/webhooks/snapchat.webhook.js,
lines 99-182), with the persistence step embedded.  The handler first
sends 200 received:true, then verifies (in production), extracts the
lead and upserts; every later failure only lands in the webhook log.
The result carries the response, the store after the run and the log
state. -/
def snapchatHandleWebhook (hmacHex : String → String → String)
    (secret : Option String) (production : Bool) (now : Int)
    (payload : String) (signature timestamp : Option String)
    (store : List Lead) (d : SnapLeadData) :
    HttpResponse × List Lead × (Option String × Bool) :=
  let resp : HttpResponse := { status := 200, bodyReceived := some true }
  if production && !snapchatVerifySignature hmacHex secret now payload signature timestamp then
    (resp, store, (some "Invalid signature", false))
  else
    match snapchatPersist store d now with
    | (store', some _) => (resp, store', (none, true))
    | (_, none) => (resp, store, (some "Missing lead_id in payload", false))

/-- Stand-in HMAC function used to instantiate concrete witnesses: it has
the one property the control flow depends on, a 64-character hex-shaped
digest. -/
def hmacStub (_secret _message : String) : String :=
  String.mk (List.replicate 64 'a')

/-- Current Meta POST handler (meta webhook, second variant, lines
212-314), projected onto response and log: the 200 received:true
response is sent before verification and processing, so the response is
fixed before any outcome exists; failures only reach the log. -/
def metaHandleWebhookCurrent (production sigOk : Bool)
    (proc : ProcOutcome) : HandlerResult :=
  let resp : HttpResponse := { status := 200, bodyReceived := some true }
  if production && !sigOk then
    { response := resp, logError := some "Invalid signature" }
  else
    match proc with
    | .success => { response := resp, logProcessed := true }
    | .failure m => { response := resp, logError := some m }

/-- Current TikTok POST handler (tiktok webhook, second variant, lines
243-333), projected onto response and log: the success-coded JSON body
is sent before verification and processing. -/
def tiktokHandleWebhookCurrent (production sigOk : Bool)
    (proc : ProcOutcome) : HandlerResult :=
  let resp : HttpResponse := { status := 200, bodyCode := some 0, bodyMessage := some "success" }
  if production && !sigOk then
    { response := resp, logError := some "Invalid signature" }
  else
    match proc with
    | .success => { response := resp, logProcessed := true }
    | .failure m => { response := resp, logError := some m }

/-! ## Theorems -/

/-- Claim C9: on the Meta webhook GET verification endpoint, when the
configured verify token is unset in the environment and the request
supplies hub.mode = "subscribe" but omits hub.verify_token, the strict
comparison of the two absent values succeeds and the endpoint responds
200 with the challenge instead of 403. -/
theorem C9_meta_verify_unset_token_accepts :
    verifyWebhookMeta none (some "subscribe") none (some "12345") = (200, some "12345") ∧
    (verifyWebhookMeta none (some "subscribe") none (some "12345")).1 ≠ 403 := by
  constructor <;> decide

/-- Helper: a string accepted by isValidObjectId is non-empty. -/
theorem isValidObjectId_not_empty {i : String} (h : isValidObjectId i = true) :
    i.isEmpty = false := by
  cases hne : i.isEmpty with
  | false => rfl
  | true =>
    have hi : i = "" := (String.isEmpty_iff i).mp hne
    subst hi
    exact absurd h (by decide)

/-- Claim C2 (amended): getLeadById answers 400 Invalid lead ID format
for an absent or malformed id, 404 Lead not found for a well-formed id
with no stored record, and the lead otherwise. -/
theorem C2_get_by_id_amended :
    (∀ store : LeadStore,
      getLeadById store none = .error ⟨"Invalid lead ID format", 400⟩) ∧
    (∀ (store : LeadStore) (i : String), isValidObjectId i = false →
      getLeadById store (some i) = .error ⟨"Invalid lead ID format", 400⟩) ∧
    (∀ (store : LeadStore) (i : String), isValidObjectId i = true →
      List.lookup i store = none →
      getLeadById store (some i) = .error ⟨"Lead not found", 404⟩) ∧
    (∀ (store : LeadStore) (i : String) (l : Lead), isValidObjectId i = true →
      List.lookup i store = some l →
      getLeadById store (some i) = .ok l) := by
  refine ⟨fun _ => rfl, ?_, ?_, ?_⟩
  · intro store i hv
    simp [getLeadById, hv]
  · intro store i hv hl
    simp [getLeadById, hv, isValidObjectId_not_empty hv, hl]
  · intro store i l hv hl
    simp [getLeadById, hv, isValidObjectId_not_empty hv, hl]

/-- Claim C2 counterexample: a malformed id and an absent id fail with
status 400 (message "Invalid lead ID format"), not with NotFound 404 as
the claim states. -/
theorem C2_counterexample :
    getLeadById [] (some "not-an-object-id") = .error ⟨"Invalid lead ID format", 400⟩ ∧
    getLeadById [] none = .error ⟨"Invalid lead ID format", 400⟩ :=
  ⟨rfl, rfl⟩

/-- Witness for C2_get_by_id_amended at concrete inputs. -/
theorem C2_amended_witness :
    getLeadById [("aaaaaaaaaaaaaaaaaaaaaaaa", ({} : Lead))]
        (some "aaaaaaaaaaaaaaaaaaaaaaaa") = .ok {} ∧
    getLeadById [] (some "aaaaaaaaaaaaaaaaaaaaaaaa") = .error ⟨"Lead not found", 404⟩ :=
  ⟨C2_get_by_id_amended.2.2.2 _ "aaaaaaaaaaaaaaaaaaaaaaaa" {} (by decide) rfl,
   C2_get_by_id_amended.2.2.1 [] "aaaaaaaaaaaaaaaaaaaaaaaa" (by decide) rfl⟩

/-- Claim C3: the current Snapchat verifier returns false whenever the
timestamp header parses to a time more than the 5 minute tolerance away
from the current time, for every provided signature — in particular also
for the correctly computed HMAC of timestamp.payload (take
signature = some (hmacHex secret (ts ++ "." ++ payload))). -/
theorem C3_snapchat_rejects_far_timestamp
    (hmacHex : String → String → String) (secret : String) (now : Int)
    (payload ts : String) (signature : Option String) (n : Int)
    (hts : parseIntJS ts = some n)
    (hfar : (now - n * 1000).natAbs > TIMESTAMP_TOLERANCE_MS.natAbs) :
    snapchatVerifySignature hmacHex (some secret) now payload signature (some ts) = false := by
  cases signature with
  | none => rfl
  | some sig =>
    have hts_ne : ts.isEmpty = false := by
      cases h : ts.isEmpty with
      | false => rfl
      | true =>
        have : ts = "" := (String.isEmpty_iff ts).mp h
        subst this
        rw [show parseIntJS "" = none from rfl] at hts
        cases hts
    by_cases hsig : sig.isEmpty
    · simp [snapchatVerifySignature, hsig]
    · simp [snapchatVerifySignature, hsig, hts_ne, hts, hfar]

/-- Witness for C3 at concrete inputs, with the signature being the
correctly computed HMAC digest of `timestamp.payload`. -/
theorem C3_witness :
    snapchatVerifySignature hmacStub (some "secret") 0 "payload"
      (some (hmacStub "secret" ("1000" ++ "." ++ "payload"))) (some "1000") = false :=
  C3_snapchat_rejects_far_timestamp hmacStub "secret" 0 "payload" "1000"
    (some (hmacStub "secret" ("1000" ++ "." ++ "payload"))) 1000 rfl (by decide)

/-- Claim C4 (amended): the guarded verifier variants (current Meta,
current TikTok, current Snapchat) always return a boolean and treat an
absent signature or secret (and a digest length mismatch) as
verification failure; the legacy Meta and TikTok variants return false
on an absent signature but throw a TypeError when the secret is unset
and a RangeError when the provided signature's byte length differs from
the expected digest's. -/
theorem C4_verify_never_throws_amended :
    ((∀ (h : String → String → String) (secret : Option String) (payload : String),
        metaVerifySignature h secret payload none = false) ∧
     (∀ (h : String → String → String) (payload : String) (sig : Option String),
        metaVerifySignature h none payload sig = false) ∧
     (∀ (h : String → String → String) (secret payload sig : String),
        sig.isEmpty = false →
        (h secret payload).length ≠ (replaceFirst sig "sha256=").length →
        metaVerifySignature h (some secret) payload (some sig) = false)) ∧
    ((∀ (h : String → String → String) (secret : Option String) (payload : String),
        tiktokVerifySignature h secret payload none = false) ∧
     (∀ (h : String → String → String) (payload : String) (sig : Option String),
        tiktokVerifySignature h none payload sig = false) ∧
     (∀ (h : String → String → String) (secret payload sig : String),
        sig.isEmpty = false →
        (h secret payload).length ≠ sig.length →
        tiktokVerifySignature h (some secret) payload (some sig) = false)) ∧
    ((∀ (h : String → String → String) (secret : Option String) (now : Int)
        (payload : String) (ts : Option String),
        snapchatVerifySignature h secret now payload none ts = false) ∧
     (∀ (h : String → String → String) (now : Int) (payload : String)
        (sig ts : Option String),
        snapchatVerifySignature h none now payload sig ts = false) ∧
     (∀ (h : String → String → String) (secret : Option String) (now : Int)
        (payload : String) (sig : Option String),
        snapchatVerifySignature h secret now payload sig none = false)) ∧
    ((∀ (h : String → String → String) (secret : Option String) (payload : String),
        metaVerifySignatureLegacy h secret payload none = .ok false) ∧
     (∀ (h : String → String → String) (payload sig : String), sig.isEmpty = false →
        metaVerifySignatureLegacy h none payload (some sig) = .error .typeError) ∧
     (∀ (h : String → String → String) (secret payload sig : String),
        sig.isEmpty = false →
        strBytes (h secret payload) ≠ strBytes (replaceFirst sig "sha256=") →
        metaVerifySignatureLegacy h (some secret) payload (some sig) = .error .rangeError)) ∧
    ((∀ (h : String → String → String) (secret : Option String) (payload : String),
        tiktokVerifySignatureLegacy h secret payload none = .ok false) ∧
     (∀ (h : String → String → String) (payload sig : String), sig.isEmpty = false →
        tiktokVerifySignatureLegacy h none payload (some sig) = .error .typeError) ∧
     (∀ (h : String → String → String) (secret payload sig : String),
        sig.isEmpty = false →
        strBytes (h secret payload) ≠ strBytes sig →
        tiktokVerifySignatureLegacy h (some secret) payload (some sig) = .error .rangeError)) := by
  refine ⟨⟨fun _ _ _ => rfl, ?_, ?_⟩, ⟨fun _ _ _ => rfl, ?_, ?_⟩,
    ⟨fun _ _ _ _ _ => rfl, ?_, ?_⟩, ⟨fun _ _ _ => rfl, ?_, ?_⟩,
    ⟨fun _ _ _ => rfl, ?_, ?_⟩⟩
  · intro h payload sig
    cases sig <;> rfl
  · intro h secret payload sig hsig hlen
    simp [metaVerifySignature, hsig, hlen]
  · intro h payload sig
    cases sig <;> rfl
  · intro h secret payload sig hsig hlen
    simp [tiktokVerifySignature, hsig, hlen]
  · intro h now payload sig ts
    cases sig with
    | none => rfl
    | some s => cases ts <;> rfl
  · intro h secret now payload sig
    cases sig <;> rfl
  · intro h payload sig hsig
    simp [metaVerifySignatureLegacy, hsig]
  · intro h secret payload sig hsig hlen
    simp [metaVerifySignatureLegacy, hsig, timingSafeEqual, hlen]
  · intro h payload sig hsig
    simp [tiktokVerifySignatureLegacy, hsig]
  · intro h secret payload sig hsig hlen
    simp [tiktokVerifySignatureLegacy, hsig, timingSafeEqual, hlen]

/-- Claim C4 counterexample: the legacy Meta and TikTok verifiers throw
for well-formed inputs the claim covers — a RangeError when a provided
signature is shorter than the 64-character digest, and a TypeError when
the platform secret is unset — instead of returning false. -/
theorem C4_counterexample :
    metaVerifySignatureLegacy hmacStub (some "secret") "body" (some "deadbeef") = .error .rangeError ∧
    metaVerifySignatureLegacy hmacStub none "body" (some "deadbeef") = .error .typeError ∧
    tiktokVerifySignatureLegacy hmacStub (some "secret") "body" (some "sig") = .error .rangeError :=
  ⟨rfl, rfl, rfl⟩

/-- Witness for C4_verify_never_throws_amended at concrete inputs. -/
theorem C4_amended_witness :
    metaVerifySignature hmacStub (some "k") "p" none = false ∧
    metaVerifySignature hmacStub (some "k") "p" (some "xy") = false ∧
    tiktokVerifySignature hmacStub none "p" (some "x") = false ∧
    snapchatVerifySignature hmacStub none 0 "p" (some "x") (some "1") = false ∧
    metaVerifySignatureLegacy hmacStub none "p" (some "x") = .error .typeError ∧
    tiktokVerifySignatureLegacy hmacStub (some "k") "p" (some "xy") = .error .rangeError :=
  ⟨C4_verify_never_throws_amended.1.1 hmacStub (some "k") "p",
   C4_verify_never_throws_amended.1.2.2 hmacStub "k" "p" "xy" (by decide) (by decide),
   C4_verify_never_throws_amended.2.1.2.1 hmacStub "p" (some "x"),
   C4_verify_never_throws_amended.2.2.1.2.1 hmacStub 0 "p" (some "x") (some "1"),
   C4_verify_never_throws_amended.2.2.2.1.2.1 hmacStub "p" "x" (by decide),
   C4_verify_never_throws_amended.2.2.2.2.2.2 hmacStub "k" "p" "xy" (by decide) (by decide)⟩

/-- Claim C8 (amended): handlers that acknowledge before processing
(current Meta, current TikTok, and the current Snapchat handler with the
persistence step embedded) send a response that is identical across all
runs, whatever the verification and processing outcome; the deferred
response legacy handlers always answer HTTP status 200 once
verification passed, but on a processing failure their body additionally
carries the error message. -/
theorem C8_response_independence_amended :
    (∀ (p1 s1 : Bool) (o1 : ProcOutcome) (p2 s2 : Bool) (o2 : ProcOutcome),
      (metaHandleWebhookCurrent p1 s1 o1).response = (metaHandleWebhookCurrent p2 s2 o2).response) ∧
    (∀ (p1 s1 : Bool) (o1 : ProcOutcome) (p2 s2 : Bool) (o2 : ProcOutcome),
      (tiktokHandleWebhookCurrent p1 s1 o1).response = (tiktokHandleWebhookCurrent p2 s2 o2).response) ∧
    (∀ (h1 h2 : String → String → String) (c1 c2 : Option String) (p1 p2 : Bool)
        (n1 n2 : Int) (b1 b2 : String) (g1 g2 t1 t2 : Option String)
        (st1 st2 : List Lead) (d1 d2 : SnapLeadData),
      (snapchatHandleWebhook h1 c1 p1 n1 b1 g1 t1 st1 d1).1 =
        (snapchatHandleWebhook h2 c2 p2 n2 b2 g2 t2 st2 d2).1) ∧
    (∀ (production sigOk : Bool) (o : ProcOutcome), (production && !sigOk) = false →
      (metaHandleWebhookLegacy production sigOk o).response.status = 200) ∧
    (∀ (production sigOk : Bool) (o : ProcOutcome), (production && !sigOk) = false →
      (tiktokHandleWebhookLegacy production sigOk o).response.status = 200) ∧
    (∀ (production sigOk : Bool) (o : ProcOutcome), (production && !sigOk) = false →
      (snapchatHandleWebhookLegacy production sigOk o).response.status = 200) ∧
    (∀ (production sigOk : Bool) (m : String), (production && !sigOk) = false →
      (metaHandleWebhookLegacy production sigOk (.failure m)).response =
        { (metaHandleWebhookLegacy production sigOk .success).response with
            bodyError := some m }) := by
  refine ⟨?_, ?_, ?_, ?_, ?_, ?_, ?_⟩
  · intro p1 s1 o1 p2 s2 o2
    cases o1 <;> cases o2 <;>
      simp [metaHandleWebhookCurrent] <;> split <;> split <;> rfl
  · intro p1 s1 o1 p2 s2 o2
    cases o1 <;> cases o2 <;>
      simp [tiktokHandleWebhookCurrent] <;> split <;> split <;> rfl
  · have key : ∀ (h : String → String → String) (c : Option String) (p : Bool) (n : Int)
        (b : String) (g t : Option String) (st : List Lead) (d : SnapLeadData),
        (snapchatHandleWebhook h c p n b g t st d).1 =
          { status := 200, bodyReceived := some true } := by
      intro h c p n b g t st d
      simp only [snapchatHandleWebhook]
      split
      · rfl
      · rcases hp : snapchatPersist st d n with ⟨st', r⟩
        cases r <;> simp [hp]
    intro h1 h2 c1 c2 p1 p2 n1 n2 b1 b2 g1 g2 t1 t2 st1 st2 d1 d2
    rw [key h1 c1 p1 n1 b1 g1 t1 st1 d1, key h2 c2 p2 n2 b2 g2 t2 st2 d2]
  · intro production sigOk o hp
    cases o <;> simp [metaHandleWebhookLegacy, hp]
  · intro production sigOk o hp
    cases o <;> simp [tiktokHandleWebhookLegacy, hp]
  · intro production sigOk o hp
    cases o <;> simp [snapchatHandleWebhookLegacy, hp]
  · intro production sigOk m hp
    simp [metaHandleWebhookLegacy, hp]

/-- Claim C8 counterexample: in the legacy Meta handler (which responds
after processing), a processing failure changes the response body — it
gains an error field — so the response is not identical across outcomes
of the same request. -/
theorem C8_counterexample :
    (metaHandleWebhookLegacy false true ProcOutcome.success).response ≠
      (metaHandleWebhookLegacy false true (ProcOutcome.failure "boom")).response := by
  decide

/-- Witness for C8_response_independence_amended at concrete inputs. -/
theorem C8_amended_witness :
    (metaHandleWebhookLegacy false true ProcOutcome.success).response.status = 200 ∧
    (metaHandleWebhookCurrent true false ProcOutcome.success).response =
      (metaHandleWebhookCurrent false true (ProcOutcome.failure "x")).response ∧
    (snapchatHandleWebhook hmacStub none false 0 "" none none [] {}).1 =
      (snapchatHandleWebhook hmacStub (some "s") true 5 "b" (some "g") (some "t")
        [{}] { lead_id := some "L1" }).1 :=
  ⟨C8_response_independence_amended.2.2.2.1 false true ProcOutcome.success (by decide),
   C8_response_independence_amended.1 true false ProcOutcome.success false true (ProcOutcome.failure "x"),
   C8_response_independence_amended.2.2.1 hmacStub hmacStub none (some "s") false true 0 5 "" "b"
     none (some "g") none (some "t") [] [{}] {} { lead_id := some "L1" }⟩

/-- Helper: unfolding of one withRetry loop iteration. -/
theorem withRetryAux_succ {α : Type} (f : Nat → Except AxiosError α) (r a : Nat) :
    withRetryAux f (r + 1) a =
      match f a with
      | .ok v => ⟨.ok v, 1, []⟩
      | .error e =>
        if !isRetryable e || r == 0 then ⟨.error e, 1, []⟩
        else
          let t := withRetryAux f r (a + 1)
          ⟨t.result, t.attemptsUsed + 1, RETRY_DELAY_MS * 2 ^ (a - 1) :: t.delays⟩ := rfl

/-- Helper: the last permitted attempt returns whatever the thunk
returns, with no further delay. -/
theorem withRetryAux_last {α : Type} (f : Nat → Except AxiosError α) (a : Nat) :
    (withRetryAux f 1 a).result = f a ∧
    (withRetryAux f 1 a).attemptsUsed = 1 ∧ (withRetryAux f 1 a).delays = [] := by
  rw [show (1 : Nat) = 0 + 1 from rfl, withRetryAux_succ]
  cases hf : f a with
  | ok v => exact ⟨rfl, rfl, rfl⟩
  | error e => simp

/-- Helper: withRetryAux makes at most `remaining` attempts. -/
theorem withRetryAux_attempts_le {α : Type} (f : Nat → Except AxiosError α) :
    ∀ remaining attempt, (withRetryAux f remaining attempt).attemptsUsed ≤ remaining := by
  intro remaining
  induction remaining with
  | zero => intro attempt; exact Nat.le_refl 0 |>.trans (by simp [withRetryAux])
  | succ r ih =>
    intro attempt
    rw [withRetryAux_succ]
    cases f attempt with
    | ok v => simp
    | error e =>
      by_cases hr : (!isRetryable e || r == 0) = true
      · simp [hr]
      · simp only [hr, if_neg]
        simp only [Bool.not_eq_true] at hr
        have := ih (attempt + 1)
        simp
        omega

/-- Claim C7: the Meta fetchers are attempted at most 3 times; a
non-retryable first failure (in particular any 4xx response) ends the
call immediately with no backoff; a retryable failure is retried after
1000ms, then 2000ms, and the third attempt's outcome is final; when the
retries are exhausted fetchFormDetails degrades to null while
fetchLeadDetails propagates the wrapped error. -/
theorem C7_retry_policy :
    (∀ (α : Type) (f : Nat → Except AxiosError α),
      (withRetry f).attemptsUsed ≤ MAX_RETRIES) ∧
    (∀ (s : Nat) (c d : Option String) (m : String), s < 500 →
      isRetryable ⟨some s, none, d, m⟩ = false ∧
      ((c = none ∨ c = some "ERR_BAD_REQUEST") → isRetryable ⟨some s, c, d, m⟩ = false)) ∧
    (∀ (α : Type) (f : Nat → Except AxiosError α) (e : AxiosError),
      f 1 = .error e → isRetryable e = false →
      (withRetry f).result = .error e ∧ (withRetry f).attemptsUsed = 1 ∧
        (withRetry f).delays = []) ∧
    (∀ (α : Type) (f : Nat → Except AxiosError α) (e : AxiosError) (v : α),
      f 1 = .error e → isRetryable e = true → f 2 = .ok v →
      (withRetry f).result = .ok v ∧ (withRetry f).attemptsUsed = 2 ∧
        (withRetry f).delays = [1000]) ∧
    (∀ (α : Type) (f : Nat → Except AxiosError α) (e1 e2 : AxiosError),
      f 1 = .error e1 → isRetryable e1 = true →
      f 2 = .error e2 → isRetryable e2 = true →
      (withRetry f).result = f 3 ∧ (withRetry f).attemptsUsed = 3 ∧
        (withRetry f).delays = [1000, 2000]) ∧
    (∀ (α : Type) (f : Nat → Except AxiosError α) (fid : String) (e : AxiosError),
      fid.isEmpty = false → (withRetry f).result = .error e →
      fetchFormDetails (some fid) f = none) ∧
    (∀ (α : Type) (f : Nat → Except AxiosError α),
      fetchFormDetails (none : Option String) f = (none : Option α)) ∧
    (∀ (α : Type) (f : Nat → Except AxiosError α) (e : AxiosError),
      (withRetry f).result = .error e →
      fetchLeadDetails f = .error (leadDetailsFailureMsg e)) := by
  refine ⟨?_, ?_, ?_, ?_, ?_, ?_, ?_, ?_⟩
  · intro α f
    exact withRetryAux_attempts_le f MAX_RETRIES 1
  · intro s c d m hs
    constructor
    · simp [isRetryable]
      omega
    · rintro (rfl | rfl) <;> simp [isRetryable] <;> omega
  · intro α f e h1 hr
    have key : withRetry f = ⟨.error e, 1, []⟩ := by
      rw [show withRetry f = withRetryAux f (2 + 1) 1 from rfl, withRetryAux_succ, h1]
      simp [hr]
    exact ⟨by rw [key], by rw [key], by rw [key]⟩
  · intro α f e v h1 hr h2
    have key : withRetry f = ⟨.ok v, 2, [1000]⟩ := by
      rw [show withRetry f = withRetryAux f (2 + 1) 1 from rfl, withRetryAux_succ, h1]
      simp only [hr, Bool.not_true, Bool.false_or, if_neg, Nat.reduceBEq,
        Bool.false_eq_true, not_false_eq_true]
      rw [show withRetryAux f 2 2 = withRetryAux f (1 + 1) 2 from rfl, withRetryAux_succ, h2]
      rfl
    exact ⟨by rw [key], by rw [key], by rw [key]⟩
  · intro α f e1 e2 h1 hr1 h2 hr2
    obtain ⟨k1, k2, k3⟩ := withRetryAux_last f 3
    have key1 : withRetry f = withRetryAux f (2 + 1) 1 := rfl
    rw [key1, withRetryAux_succ, h1]
    simp only [hr1, Bool.not_true, Bool.false_or, Nat.reduceBEq, Bool.false_eq_true,
      not_false_eq_true, if_neg]
    rw [show withRetryAux f 2 2 = withRetryAux f (1 + 1) 2 from rfl, withRetryAux_succ, h2]
    simp only [hr2, Bool.not_true, Bool.false_or, Nat.reduceBEq, Bool.false_eq_true,
      not_false_eq_true, if_neg]
    exact ⟨k1, by simp [k2], by rw [k3]; decide⟩
  · intro α f fid e hfid hres
    simp [fetchFormDetails, jsOrNull, jsOr, hfid, hres]
  · intro α f
    rfl
  · intro α f e hres
    simp [fetchLeadDetails, hres]

/-- Witness for C7_retry_policy at concrete thunks. -/
theorem C7_witness :
    (withRetry (fun n => if n == 1 then .error ⟨some 500, none, none, "e1"⟩
        else (.ok n : Except AxiosError Nat))).result = .ok 2 ∧
    (withRetry (fun n => if n == 1 then .error ⟨some 500, none, none, "e1"⟩
        else (.ok n : Except AxiosError Nat))).delays = [1000] ∧
    (withRetry (fun _ => (.error ⟨some 404, none, none, "bad"⟩ :
        Except AxiosError Nat))).attemptsUsed = 1 ∧
    fetchFormDetails (some "form1")
      (fun _ => (.error ⟨some 503, none, none, "down"⟩ : Except AxiosError Nat)) = none ∧
    fetchLeadDetails (fun _ => (.error ⟨some 503, none, none, "down"⟩ :
        Except AxiosError Nat)) = .error (leadDetailsFailureMsg ⟨some 503, none, none, "down"⟩) :=
  ⟨(C7_retry_policy.2.2.2.1 Nat
      (fun n => if n == 1 then .error ⟨some 500, none, none, "e1"⟩ else .ok n)
      ⟨some 500, none, none, "e1"⟩ 2 rfl (by decide) rfl).1,
   (C7_retry_policy.2.2.2.1 Nat
      (fun n => if n == 1 then .error ⟨some 500, none, none, "e1"⟩ else .ok n)
      ⟨some 500, none, none, "e1"⟩ 2 rfl (by decide) rfl).2.2,
   (C7_retry_policy.2.2.1 Nat (fun _ => .error ⟨some 404, none, none, "bad"⟩)
      ⟨some 404, none, none, "bad"⟩ rfl (by decide)).2.1,
   C7_retry_policy.2.2.2.2.2.1 Nat (fun _ => .error ⟨some 503, none, none, "down"⟩)
     "form1" ⟨some 503, none, none, "down"⟩ (by decide)
     ((C7_retry_policy.2.2.2.2.1 Nat (fun _ => .error ⟨some 503, none, none, "down"⟩)
        ⟨some 503, none, none, "down"⟩
        ⟨some 503, none, none, "down"⟩ rfl (by decide) rfl (by decide)).1.trans rfl),
   C7_retry_policy.2.2.2.2.2.2.2 Nat (fun _ => .error ⟨some 503, none, none, "down"⟩)
     ⟨some 503, none, none, "down"⟩
     ((C7_retry_policy.2.2.2.2.1 Nat (fun _ => .error ⟨some 503, none, none, "down"⟩)
        ⟨some 503, none, none, "down"⟩
        ⟨some 503, none, none, "down"⟩ rfl (by decide) rfl (by decide)).1.trans rfl)⟩

/-- Helper: looking up the key just written by setKey, replace case. -/
theorem lookup_map_replace (k v : String) :
    ∀ (m : List (String × String)), (List.lookup k m).isSome = true →
    List.lookup k (m.map (fun p => cond (p.1 == k) (k, v) p)) = some v := by
  intro m
  induction m with
  | nil => simp
  | cons p ps ih =>
    rcases p with ⟨a, b⟩
    intro h
    by_cases hak : a = k
    · subst hak
      simp [List.lookup]
    · have h1 : (a == k) = false := beq_eq_false_iff_ne.mpr hak
      have h2 : (k == a) = false := beq_eq_false_iff_ne.mpr (Ne.symm hak)
      simp only [List.lookup, h2] at h
      simp only [List.map_cons, h1, cond_false, List.lookup, h2]
      exact ih h

/-- Helper: lookup passes over a list that does not contain the key. -/
theorem lookup_append_of_none (k : String) (l2 : List (String × String)) :
    ∀ l1, List.lookup k l1 = none → List.lookup k (l1 ++ l2) = List.lookup k l2 := by
  intro l1
  induction l1 with
  | nil => intro _; simp
  | cons p ps ih =>
    rcases p with ⟨a, b⟩
    intro h
    cases hka : (k == a) with
    | true => simp only [List.lookup, hka] at h; cases h
    | false =>
      simp only [List.lookup, hka] at h
      simp only [List.cons_append, List.lookup, hka]
      exact ih h

/-- Helper: a key present on the left of an append stays present. -/
theorem lookup_append_isSome (k : String) (l2 : List (String × String)) :
    ∀ l1, (List.lookup k l1).isSome = true → (List.lookup k (l1 ++ l2)).isSome = true := by
  intro l1
  induction l1 with
  | nil => simp
  | cons p ps ih =>
    rcases p with ⟨a, b⟩
    intro h
    cases hka : (k == a) with
    | true => simp [List.cons_append, List.lookup, hka]
    | false =>
      simp only [List.lookup, hka] at h
      simp only [List.cons_append, List.lookup, hka]
      exact ih h

/-- Helper: setKey makes its key present with the written value. -/
theorem lookup_setKey_self (m : List (String × String)) (k v : String) :
    List.lookup k (setKey m k v) = some v := by
  by_cases h : (List.lookup k m).isSome = true
  · simp only [setKey, h, if_pos]
    exact lookup_map_replace k v m h
  · have h' : List.lookup k m = none := by
      cases hm : List.lookup k m with
      | none => rfl
      | some x => rw [hm] at h; simp at h
    simp only [setKey, h', Option.isSome_none, Bool.false_eq_true, if_false]
    rw [lookup_append_of_none k _ m h']
    simp [List.lookup]

/-- Helper: a present key stays present under a map replace. -/
theorem lookup_map_replace_isSome (k k' v : String) :
    ∀ (m : List (String × String)), (List.lookup k m).isSome = true →
    (List.lookup k (m.map (fun p => cond (p.1 == k') (k', v) p))).isSome = true := by
  intro m
  induction m with
  | nil => simp
  | cons p ps ih =>
    rcases p with ⟨a, b⟩
    intro h
    by_cases hak : a = k'
    · subst hak
      cases hka : (k == a) with
      | true =>
        have : k = a := by simpa using hka
        subst this
        simp [List.lookup, List.map_cons]
      | false =>
        simp only [List.lookup, hka] at h
        simp only [List.map_cons, beq_self_eq_true, cond_true, List.lookup, hka]
        exact ih h
    · have h1 : (a == k') = false := beq_eq_false_iff_ne.mpr hak
      cases hka : (k == a) with
      | true =>
        simp [List.map_cons, h1, List.lookup, hka]
      | false =>
        simp only [List.lookup, hka] at h
        simp only [List.map_cons, h1, cond_false, List.lookup, hka]
        exact ih h

/-- Helper: setKey never removes a present key. -/
theorem lookup_setKey_isSome (m : List (String × String)) (k k' v : String)
    (h : (List.lookup k m).isSome = true) :
    (List.lookup k (setKey m k' v)).isSome = true := by
  by_cases hp : (List.lookup k' m).isSome = true
  · simp only [setKey, hp, if_pos]
    exact lookup_map_replace_isSome k k' v m h
  · simp only [setKey]
    rw [if_neg hp]
    exact lookup_append_isSome k _ m h

/-- Helper: finalizeCustomerName does not touch customFields. -/
theorem finalizeCustomerName_customFields (d : ParsedLead) :
    (finalizeCustomerName d).customFields = d.customFields := by
  simp only [finalizeCustomerName]
  split <;> rfl

/-- Helper: one Meta parsing step never removes a custom field. -/
theorem parseFieldDataStep_customFields_isSome (d : ParsedLead) (f : MetaField)
    (k : String) (h : (List.lookup k d.customFields).isSome = true) :
    (List.lookup k (parseFieldDataStep d f).customFields).isSome = true := by
  simp only [parseFieldDataStep]
  split
  · exact h
  · split
    · exact h
    · split
      · exact h
      · split
        · exact h
        · split
          · exact h
          · exact lookup_setKey_isSome _ k f.name _ h

/-- Helper: one Meta parsing step on an unrecognized field stores it in
customFields under the original name. -/
theorem parseFieldDataStep_customFields_sets (d : ParsedLead) (f : MetaField)
    (h : jsToLower f.name ∉ metaRecognizedNames) :
    (List.lookup f.name (parseFieldDataStep d f).customFields).isSome = true := by
  simp only [metaRecognizedNames, List.mem_cons, List.not_mem_nil, or_false, not_or] at h
  obtain ⟨h1, h2, h3, h4, h5, h6⟩ := h
  simp only [parseFieldDataStep, h1, h2, h3, h4, h5, h6, or_self, if_false,
    lookup_setKey_self, Option.isSome_some]

/-- Helper: the Meta field fold keeps every present custom field. -/
theorem foldl_parseFieldDataStep_isSome (k : String) :
    ∀ (fds : List MetaField) (d : ParsedLead),
      (List.lookup k d.customFields).isSome = true →
      (List.lookup k (fds.foldl parseFieldDataStep d).customFields).isSome = true := by
  intro fds
  induction fds with
  | nil => intro d h; simpa using h
  | cons f fs ih =>
    intro d h
    exact ih _ (parseFieldDataStep_customFields_isSome d f k h)

/-- Helper: every unrecognized Meta field ends up in customFields. -/
theorem foldl_parseFieldDataStep_no_loss :
    ∀ (fds : List MetaField) (d : ParsedLead) (f : MetaField), f ∈ fds →
      jsToLower f.name ∉ metaRecognizedNames →
      (List.lookup f.name (fds.foldl parseFieldDataStep d).customFields).isSome = true := by
  intro fds
  induction fds with
  | nil => intro d f hmem; cases hmem
  | cons g gs ih =>
    intro d f hmem hname
    rcases List.mem_cons.mp hmem with rfl | hmem'
    · exact foldl_parseFieldDataStep_isSome f.name gs _
        (parseFieldDataStep_customFields_sets d f hname)
    · exact ih _ f hmem' hname

/-- Helper: one Snapchat parsing step never removes a custom field. -/
theorem parseSnapchatStep_customFields_isSome (d : ParsedLead) (r : SnapResponse)
    (k : String) (h : (List.lookup k d.customFields).isSome = true) :
    (List.lookup k (parseSnapchatStep d r).customFields).isSome = true := by
  simp only [parseSnapchatStep]
  split
  · exact h
  · split
    · exact h
    · split
      · exact h
      · split
        · exact h
        · split
          · exact h
          · exact lookup_setKey_isSome _ k (snapKey r) _ h

/-- Helper: one Snapchat parsing step on an unrecognized question type
stores the answer in customFields under the snapKey of the response. -/
theorem parseSnapchatStep_customFields_sets (d : ParsedLead) (r : SnapResponse)
    (h : ((r.question_type.map jsToLower) |> jsOrNull |>.getD "") ∉ snapRecognizedTypes) :
    (List.lookup (snapKey r) (parseSnapchatStep d r).customFields).isSome = true := by
  simp only [snapRecognizedTypes, List.mem_cons, List.not_mem_nil, or_false, not_or] at h
  obtain ⟨h1, h2, h3, h4, h5, h6, h7⟩ := h
  simp only [parseSnapchatStep, h1, h2, h3, h4, h5, h6, h7, or_self, if_false,
    lookup_setKey_self, Option.isSome_some]

/-- Helper: the Snapchat response fold keeps every present custom field. -/
theorem foldl_parseSnapchatStep_isSome (k : String) :
    ∀ (rs : List SnapResponse) (d : ParsedLead),
      (List.lookup k d.customFields).isSome = true →
      (List.lookup k (rs.foldl parseSnapchatStep d).customFields).isSome = true := by
  intro rs
  induction rs with
  | nil => intro d h; simpa using h
  | cons r rest ih =>
    intro d h
    exact ih _ (parseSnapchatStep_customFields_isSome d r k h)

/-- Helper: every unrecognized Snapchat response ends up in customFields. -/
theorem foldl_parseSnapchatStep_no_loss :
    ∀ (rs : List SnapResponse) (d : ParsedLead) (r : SnapResponse), r ∈ rs →
      ((r.question_type.map jsToLower) |> jsOrNull |>.getD "") ∉ snapRecognizedTypes →
      (List.lookup (snapKey r) (rs.foldl parseSnapchatStep d).customFields).isSome = true := by
  intro rs
  induction rs with
  | nil => intro d r hmem; cases hmem
  | cons g gs ih =>
    intro d r hmem hname
    rcases List.mem_cons.mp hmem with rfl | hmem'
    · exact foldl_parseSnapchatStep_isSome (snapKey r) gs _
        (parseSnapchatStep_customFields_sets d r hname)
    · exact ih _ r hmem' hname

/-- Claim C5: the normalizers route every field whose lower-cased
name or question type is not in the recognition table into customFields
under the field's original key (no data loss), and on the concrete
three-field input the Meta normalizer produces firstName Jane,
lastName Doe, the synthesized customerName "Jane Doe", and
customFields mapping favorite_color to blue. -/
theorem C5_normalizer_routing :
    (∀ (fds : List MetaField) (f : MetaField), f ∈ fds →
      jsToLower f.name ∉ metaRecognizedNames →
      (List.lookup f.name (parseFieldData (some fds)).customFields).isSome = true) ∧
    (∀ (rs : List SnapResponse) (r : SnapResponse), r ∈ rs →
      ((r.question_type.map jsToLower) |> jsOrNull |>.getD "") ∉ snapRecognizedTypes →
      (List.lookup (snapKey r) (parseSnapchatLead (some rs) none).customFields).isSome = true) ∧
    parseFieldData (some [⟨"first_name", some ["Jane"]⟩, ⟨"last_name", some ["Doe"]⟩,
        ⟨"favorite_color", some ["blue"]⟩]) =
      { firstName := some "Jane", lastName := some "Doe",
        customerName := some "Jane Doe",
        customFields := [("favorite_color", "blue")] } := by
  refine ⟨?_, ?_, ?_⟩
  · intro fds f hmem hname
    show (List.lookup f.name
      (finalizeCustomerName (fds.foldl parseFieldDataStep {})).customFields).isSome = true
    rw [finalizeCustomerName_customFields]
    exact foldl_parseFieldDataStep_no_loss fds {} f hmem hname
  · intro rs r hmem hname
    show (List.lookup (snapKey r)
      (finalizeCustomerName (rs.foldl parseSnapchatStep {})).customFields).isSome = true
    rw [finalizeCustomerName_customFields]
    exact foldl_parseSnapchatStep_no_loss rs {} r hmem hname
  · rfl

/-- Witness for C5_normalizer_routing at concrete inputs. -/
theorem C5_witness :
    (List.lookup "favorite_color" (parseFieldData (some [⟨"favorite_color", some ["blue"]⟩,
        ⟨"email", some ["j@x.co"]⟩])).customFields).isSome = true ∧
    (List.lookup "q42" (parseSnapchatLead
        (some [{ question_type := some "shoe_size", question_id := some "q42",
                 answer := some "44" }]) none).customFields).isSome = true :=
  ⟨C5_normalizer_routing.1 [⟨"favorite_color", some ["blue"]⟩, ⟨"email", some ["j@x.co"]⟩]
      ⟨"favorite_color", some ["blue"]⟩ (by simp) (by decide),
   C5_normalizer_routing.2.1
      [⟨some "shoe_size", some "q42", none, some "44"⟩]
      ⟨some "shoe_size", some "q42", none, some "44"⟩
      (by simp) (by decide)⟩

/-- Helper: the document returned by an upsert is the update applied to
the first key match, or to a fresh default document. -/
theorem upsertByKey_snd (platform pid : String) (mk : Lead → Lead) :
    ∀ store : List Lead, (upsertByKey platform pid mk store).2 =
      mk ((findByKey store platform pid).getD {}) := by
  intro store
  induction store with
  | nil => rfl
  | cons l ls ih =>
    by_cases h : keyMatch platform pid l = true
    · simp [upsertByKey, findByKey, List.find?, h]
    · have h' : keyMatch platform pid l = false := by
        cases hx : keyMatch platform pid l with
        | false => rfl
        | true => exact absurd hx h
      simp only [upsertByKey, h', Bool.false_eq_true, if_false, findByKey, List.find?]
      exact ih

/-- Helper: after an upsert whose update document carries the key, the
first lead found under the key is the returned document. -/
theorem findByKey_upsert (platform pid : String) (mk : Lead → Lead)
    (hmk : ∀ l, keyMatch platform pid (mk l) = true) :
    ∀ store : List Lead,
      findByKey (upsertByKey platform pid mk store).1 platform pid =
        some (upsertByKey platform pid mk store).2 := by
  intro store
  induction store with
  | nil => simp [upsertByKey, findByKey, List.find?, hmk]
  | cons l ls ih =>
    by_cases h : keyMatch platform pid l = true
    · simp [upsertByKey, findByKey, List.find?, h, hmk]
    · have h' : keyMatch platform pid l = false := by
        cases hx : keyMatch platform pid l with
        | false => rfl
        | true => exact absurd hx h
      simp only [upsertByKey, h', Bool.false_eq_true, if_false, findByKey, List.find?]
      exact ih

/-- Helper: upserting into a store respecting the unique index leaves
exactly one lead under the key. -/
theorem countKey_upsert (platform pid : String) (mk : Lead → Lead)
    (hmk : ∀ l, keyMatch platform pid (mk l) = true) :
    ∀ store : List Lead, countKey store platform pid ≤ 1 →
      countKey (upsertByKey platform pid mk store).1 platform pid = 1 := by
  intro store
  induction store with
  | nil => intro _; simp [upsertByKey, countKey, List.filter_cons, hmk]
  | cons l ls ih =>
    intro hle
    by_cases h : keyMatch platform pid l = true
    · have hls : countKey ls platform pid = 0 := by
        simp only [countKey, List.filter_cons, h, if_pos, List.length_cons] at hle
        simp only [countKey]
        omega
      simp only [upsertByKey, h, if_pos, countKey, List.filter_cons, hmk,
        if_true, List.length_cons]
      simp only [countKey] at hls
      omega
    · have h' : keyMatch platform pid l = false := by
        cases hx : keyMatch platform pid l with
        | false => rfl
        | true => exact absurd hx h
      have hle' : countKey ls platform pid ≤ 1 := by
        simp only [countKey, List.filter_cons, h', Bool.false_eq_true, if_false] at hle
        exact hle
      simp only [upsertByKey, h', Bool.false_eq_true, if_false]
      simp only [countKey, List.filter_cons, h', Bool.false_eq_true, if_false]
      exact ih hle'

/-- Helper: the Snapchat update document always carries the dedup key. -/
theorem snapchatUpsertDoc_keyMatch (d : SnapLeadData) (lid : String) (now : Int)
    (l : Lead) : keyMatch "snapchat" lid (snapchatUpsertDoc d lid now l) = true := by
  simp [keyMatch, snapchatUpsertDoc]

/-- Claim C1: two deliveries carrying the same platform lead id, applied
to a store respecting the unique (platform, platformLeadId) index, leave
exactly one stored lead under the key; that lead is the second upsert's
document, so its fields are the ones computed from the second delivery
(receivedAt is the second processing time, form id, custom fields and
the key come from the second payload). -/
theorem C1_snapchat_idempotent_upsert
    (store : List Lead) (d1 d2 : SnapLeadData) (now1 now2 : Int) (lid : String)
    (h1 : jsOr d1.lead_id d1.id = some lid)
    (h2 : jsOr d2.lead_id d2.id = some lid)
    (hne : lid.isEmpty = false)
    (hcount : countKey store "snapchat" lid ≤ 1) :
    ∃ (l1 l2 : Lead) (store1 store2 : List Lead),
      snapchatPersist store d1 now1 = (store1, some l1) ∧
      snapchatPersist store1 d2 now2 = (store2, some l2) ∧
      countKey store2 "snapchat" lid = 1 ∧
      findByKey store2 "snapchat" lid = some l2 ∧
      l2 = snapchatUpsertDoc d2 lid now2 l1 ∧
      l2.receivedAt = now2 ∧
      l2.platform = "snapchat" ∧ l2.platformLeadId = lid ∧
      l2.formId = jsOrNull d2.form_id ∧
      l2.customFields = (parseSnapchatLead d2.form_responses d2.responses).customFields := by
  have hmk1 := snapchatUpsertDoc_keyMatch d1 lid now1
  have hmk2 := snapchatUpsertDoc_keyMatch d2 lid now2
  have e1 : snapchatPersist store d1 now1 =
      ((upsertByKey "snapchat" lid (snapchatUpsertDoc d1 lid now1) store).1,
       some (upsertByKey "snapchat" lid (snapchatUpsertDoc d1 lid now1) store).2) := by
    simp [snapchatPersist, h1, hne]
  have e2 : ∀ st : List Lead, snapchatPersist st d2 now2 =
      ((upsertByKey "snapchat" lid (snapchatUpsertDoc d2 lid now2) st).1,
       some (upsertByKey "snapchat" lid (snapchatUpsertDoc d2 lid now2) st).2) := by
    intro st
    simp [snapchatPersist, h2, hne]
  set r1 := upsertByKey "snapchat" lid (snapchatUpsertDoc d1 lid now1) store with hr1
  set r2 := upsertByKey "snapchat" lid (snapchatUpsertDoc d2 lid now2) r1.1 with hr2
  have hc1 : countKey r1.1 "snapchat" lid = 1 :=
    countKey_upsert "snapchat" lid _ hmk1 store hcount
  have hc2 : countKey r2.1 "snapchat" lid = 1 :=
    countKey_upsert "snapchat" lid _ hmk2 r1.1 (by omega)
  have hf1 : findByKey r1.1 "snapchat" lid = some r1.2 :=
    findByKey_upsert "snapchat" lid _ hmk1 store
  have hf2 : findByKey r2.1 "snapchat" lid = some r2.2 :=
    findByKey_upsert "snapchat" lid _ hmk2 r1.1
  have hsnd : r2.2 = snapchatUpsertDoc d2 lid now2 r1.2 := by
    rw [hr2, upsertByKey_snd, hf1]
    rfl
  refine ⟨r1.2, r2.2, r1.1, r2.1, e1, e2 r1.1, hc2, hf2, hsnd, ?_, ?_, ?_, ?_, ?_⟩ <;>
    rw [hsnd] <;> rfl

/-- Witness for C1_snapchat_idempotent_upsert at a concrete delivery. -/
theorem C1_witness :
    ∃ (l1 l2 : Lead) (store1 store2 : List Lead),
      snapchatPersist [] { lead_id := some "L1", form_id := some "F1" } 10 = (store1, some l1) ∧
      snapchatPersist store1 { lead_id := some "L1", form_id := some "F1" } 20 = (store2, some l2) ∧
      countKey store2 "snapchat" "L1" = 1 ∧
      findByKey store2 "snapchat" "L1" = some l2 ∧
      l2 = snapchatUpsertDoc { lead_id := some "L1", form_id := some "F1" } "L1" 20 l1 ∧
      l2.receivedAt = 20 ∧
      l2.platform = "snapchat" ∧ l2.platformLeadId = "L1" ∧
      l2.formId = jsOrNull (some "F1") ∧
      l2.customFields = (parseSnapchatLead none none).customFields :=
  C1_snapchat_idempotent_upsert [] { lead_id := some "L1", form_id := some "F1" }
    { lead_id := some "L1", form_id := some "F1" } 10 20 "L1" rfl rfl rfl (by decide)

/-- Helper: every failing updateLead call returns the store untouched
(all validation happens before findByIdAndUpdate). -/
theorem updateLead_error_store_unchanged (store : LeadStore) (id : Option String)
    (ud : Option (List (String × JVal))) (e : ApiError)
    (h : (updateLead store id ud).1 = .error e) :
    (updateLead store id ud).2 = store := by
  cases id with
  | none => rfl
  | some i =>
    cases hv : (i.isEmpty || !isValidObjectId i) with
    | true => simp [updateLead, hv]
    | false =>
      cases ud with
      | none => simp [updateLead, hv]
      | some u =>
        cases hval : validateUpdateFields allowedFields u with
        | error e' => simp [updateLead, hv, hval]
        | ok fd =>
          cases hfd : fd.isEmpty with
          | true => simp [updateLead, hv, hval, hfd]
          | false =>
            cases hlk : List.lookup i store with
            | none => simp [updateLead, hv, hval, hfd, hlk]
            | some l => simp [updateLead, hv, hval, hfd, hlk] at h

/-- Helper: a successful validation pass only emits allow-listed fields,
each carrying the sanitized supplied value. -/
theorem validateUpdateFields_ok_spec :
    ∀ (fields : List String) (ud fd : List (String × JVal)),
      validateUpdateFields fields ud = .ok fd →
      ∀ kv ∈ fd, kv.1 ∈ fields ∧
        ∃ v, List.lookup kv.1 ud = some v ∧ kv.2 = sanitizeString v := by
  intro fields
  induction fields with
  | nil =>
    intro ud fd h kv hmem
    simp only [validateUpdateFields] at h
    cases h
    cases hmem
  | cons f rest ih =>
    intro ud fd h kv hmem
    cases hlk : List.lookup f ud with
    | none =>
      simp only [validateUpdateFields, hlk] at h
      have := ih ud fd h kv hmem
      exact ⟨List.mem_cons_of_mem f this.1, this.2⟩
    | some v =>
      simp only [validateUpdateFields, hlk] at h
      by_cases c1 : (f == "status" && !statusIncluded v) = true
      · rw [if_pos c1] at h; cases h
      · rw [if_neg c1] at h
        by_cases c2 : (f == "email" && v.truthy && !emailRegexTest v.toStr) = true
        · rw [if_pos c2] at h; cases h
        · rw [if_neg c2] at h
          cases hrec : validateUpdateFields rest ud with
          | error e => rw [hrec] at h; cases h
          | ok tail =>
            rw [hrec] at h
            cases h
            rcases List.mem_cons.mp hmem with rfl | hmem'
            · exact ⟨List.mem_cons_self f rest, v, hlk, rfl⟩
            · have := ih ud tail hrec kv hmem'
              exact ⟨List.mem_cons_of_mem f this.1, this.2⟩

/-- Helper: an out-of-range status value makes validation fail with the
Invalid status error. -/
theorem validateUpdateFields_bad_status (ud : List (String × JVal)) (v : JVal)
    (hlk : List.lookup "status" ud = some v) (hbad : statusIncluded v = false) :
    validateUpdateFields allowedFields ud = .error ⟨invalidStatusMsg, 400⟩ := by
  simp [validateUpdateFields, allowedFields, hlk, hbad]

/-- Helper: a field absent from the update data is skipped. -/
theorem validate_cons_skip (f : String) (rest : List String)
    (ud : List (String × JVal)) (hlk : List.lookup f ud = none) :
    validateUpdateFields (f :: rest) ud = validateUpdateFields rest ud := by
  simp [validateUpdateFields, hlk]

/-- Helper: a supplied field other than status and email is sanitized and
prepended, with errors from later fields propagating. -/
theorem validate_cons_plain (f : String) (rest : List String)
    (ud : List (String × JVal)) (v : JVal)
    (hf1 : (f == "status") = false) (hf2 : (f == "email") = false)
    (hlk : List.lookup f ud = some v) :
    validateUpdateFields (f :: rest) ud =
      match validateUpdateFields rest ud with
      | .error e => .error e
      | .ok tail => .ok ((f, sanitizeString v) :: tail) := by
  simp [validateUpdateFields, hlk, hf1, hf2]

/-- Helper: a status value from the valid set passes and is prepended. -/
theorem validate_cons_status_ok (rest : List String) (ud : List (String × JVal))
    (s : String) (hlk : List.lookup "status" ud = some (JVal.str s))
    (hmem : s ∈ validStatuses) :
    validateUpdateFields ("status" :: rest) ud =
      match validateUpdateFields rest ud with
      | .error e => .error e
      | .ok tail => .ok (("status", sanitizeString (JVal.str s)) :: tail) := by
  have hsi : statusIncluded (JVal.str s) = true := by
    simpa [statusIncluded] using hmem
  simp [validateUpdateFields, hlk, hsi]

/-- Helper: a supplied empty-string email is falsy, so the regex guard is
skipped and the empty string is admitted into the update document. -/
theorem validate_cons_email_empty (rest : List String) (ud : List (String × JVal))
    (hlk : List.lookup "email" ud = some (JVal.str "")) :
    validateUpdateFields ("email" :: rest) ud =
      match validateUpdateFields rest ud with
      | .error e => .error e
      | .ok tail => .ok (("email", JVal.str "") :: tail) := by
  have hsan : sanitizeString (JVal.str "") = JVal.str "" := rfl
  simp [validateUpdateFields, hlk, JVal.truthy, hsan,
    show ("" : String).isEmpty = true from rfl]

/-- Helper: a supplied truthy email failing the regex fails validation. -/
theorem validate_cons_email_bad (rest : List String) (ud : List (String × JVal))
    (v : JVal) (hlk : List.lookup "email" ud = some v)
    (ht : v.truthy = true) (hr : emailRegexTest v.toStr = false) :
    validateUpdateFields ("email" :: rest) ud =
      .error ⟨"Invalid email format", 400⟩ := by
  simp [validateUpdateFields, hlk, ht, hr]

/-- Helper: errors from later fields propagate through an earlier field
that is not status or email. -/
theorem validate_cons_error (f : String) (rest : List String)
    (ud : List (String × JVal)) (e : ApiError)
    (hf1 : (f == "status") = false) (hf2 : (f == "email") = false)
    (h : validateUpdateFields rest ud = .error e) :
    validateUpdateFields (f :: rest) ud = .error e := by
  cases hlk : List.lookup f ud with
  | none => rw [validate_cons_skip f rest ud hlk, h]
  | some v => rw [validate_cons_plain f rest ud v hf1 hf2 hlk, h]

/-- Helper: errors from later fields propagate through a status field
that is absent or valid. -/
theorem validate_cons_status_pass_error (rest : List String)
    (ud : List (String × JVal)) (e : ApiError)
    (hst : List.lookup "status" ud = none ∨
      ∃ s, List.lookup "status" ud = some (JVal.str s) ∧ s ∈ validStatuses)
    (h : validateUpdateFields rest ud = .error e) :
    validateUpdateFields ("status" :: rest) ud = .error e := by
  rcases hst with hst | ⟨s, hsts, hsmem⟩
  · rw [validate_cons_skip _ _ _ hst, h]
  · rw [validate_cons_status_ok rest ud s hsts hsmem, h]

/-- Helper: prepending a non-status non-email field preserves a
successful validation whose update document forces email to the empty
string. -/
theorem validate_extend_ok_email (f : String) (rest : List String)
    (ud : List (String × JVal)) (t : List (String × JVal))
    (hf1 : (f == "status") = false) (hf2 : (f == "email") = false)
    (hok : validateUpdateFields rest ud = .ok t)
    (hne : t.isEmpty = false)
    (hmail : ∀ l : Lead, (applyUpdate l t).email = some "") :
    ∃ t', validateUpdateFields (f :: rest) ud = .ok t' ∧ t'.isEmpty = false ∧
      ∀ l : Lead, (applyUpdate l t').email = some "" := by
  cases hlk : List.lookup f ud with
  | none =>
    refine ⟨t, ?_, hne, hmail⟩
    rw [validate_cons_skip f rest ud hlk]
    exact hok
  | some v =>
    refine ⟨(f, sanitizeString v) :: t, ?_, rfl, ?_⟩
    · rw [validate_cons_plain f rest ud v hf1 hf2 hlk, hok]
    · intro l
      exact hmail (applyUpdateField l (f, sanitizeString v))

/-- Helper: when the update data supplies email as the empty string and
any supplied status is valid, validation succeeds and the resulting
update document writes the empty string into the email field of every
lead it is applied to. -/
theorem validate_allowed_ok_email_empty (ud : List (String × JVal))
    (hem : List.lookup "email" ud = some (JVal.str ""))
    (hst : List.lookup "status" ud = none ∨
      ∃ s, List.lookup "status" ud = some (JVal.str s) ∧ s ∈ validStatuses) :
    ∃ fd, validateUpdateFields allowedFields ud = .ok fd ∧ fd.isEmpty = false ∧
      ∀ l : Lead, (applyUpdate l fd).email = some "" := by
  have hph : ∃ t, validateUpdateFields ["phone"] ud = .ok t ∧
      ∀ l : Lead, (applyUpdate l t).email = l.email := by
    cases hp : List.lookup "phone" ud with
    | none =>
      refine ⟨[], ?_, fun l => rfl⟩
      rw [validate_cons_skip _ _ _ hp]
      rfl
    | some v =>
      refine ⟨[("phone", sanitizeString v)], ?_, fun l => rfl⟩
      rw [validate_cons_plain "phone" [] ud v rfl rfl hp]
      rfl
  obtain ⟨tp, htp, htpe⟩ := hph
  have he : ∃ t, validateUpdateFields ["email", "phone"] ud = .ok t ∧
      t.isEmpty = false ∧ ∀ l : Lead, (applyUpdate l t).email = some "" := by
    refine ⟨("email", JVal.str "") :: tp, ?_, rfl, ?_⟩
    · rw [validate_cons_email_empty ["phone"] ud hem, htp]
    · intro l
      show (applyUpdate (applyUpdateField l ("email", JVal.str "")) tp).email = some ""
      rw [htpe]
      rfl
  obtain ⟨te, hte, htene, htee⟩ := he
  obtain ⟨tc, htc, htcne, htce⟩ :=
    validate_extend_ok_email "customerName" ["email", "phone"] ud te rfl rfl hte htene htee
  obtain ⟨tn, htn, htnne, htne⟩ :=
    validate_extend_ok_email "notes" ["customerName", "email", "phone"] ud tc rfl rfl htc htcne htce
  rcases hst with hst0 | ⟨s, hsts, hsmem⟩
  · refine ⟨tn, ?_, htnne, htne⟩
    rw [show validateUpdateFields allowedFields ud =
      validateUpdateFields ("status" :: ["notes", "customerName", "email", "phone"]) ud from rfl]
    rw [validate_cons_skip _ _ _ hst0]
    exact htn
  · refine ⟨("status", sanitizeString (JVal.str s)) :: tn, ?_, rfl, ?_⟩
    · rw [show validateUpdateFields allowedFields ud =
        validateUpdateFields ("status" :: ["notes", "customerName", "email", "phone"]) ud from rfl]
      rw [validate_cons_status_ok _ ud s hsts hsmem, htn]
    · intro l
      exact htne (applyUpdateField l ("status", sanitizeString (JVal.str s)))

/-- Helper: a valid object id makes the updateLead guard pass. -/
theorem updateLead_guard_false {i : String} (hv : isValidObjectId i = true) :
    (i.isEmpty || !isValidObjectId i) = false := by
  simp [hv, isValidObjectId_not_empty hv]

/-- Claim C6 (amended): updateLead only ever writes the five
allow-listed fields, each value sanitized (trimmed and capped at 1000
characters for strings); it fails with 400 when status is supplied
outside the five valid values, when a supplied truthy email fails the
syntactic check (an empty-string email skips the check), or when no
allow-listed field is supplied; a well-formed id resolving to no record
fails with NotFound 404; and every failure leaves the store unchanged. -/
theorem C6_update_allow_list_amended :
    (∀ (store : LeadStore) (id : Option String)
        (ud : Option (List (String × JVal))) (e : ApiError),
      (updateLead store id ud).1 = .error e → (updateLead store id ud).2 = store) ∧
    (∀ (ud fd : List (String × JVal)),
      validateUpdateFields allowedFields ud = .ok fd →
      ∀ kv ∈ fd, kv.1 ∈ allowedFields ∧
        ∃ v, List.lookup kv.1 ud = some v ∧ kv.2 = sanitizeString v) ∧
    (∀ s : String, sanitizeString (.str s) = .str (jsSlice (jsTrim s) 1000) ∧
      (jsSlice (jsTrim s) 1000).length ≤ 1000) ∧
    (∀ (store : LeadStore) (i : String) (ud : List (String × JVal)) (v : JVal),
      isValidObjectId i = true →
      List.lookup "status" ud = some v → statusIncluded v = false →
      (updateLead store (some i) (some ud)).1 = .error ⟨invalidStatusMsg, 400⟩) ∧
    (∀ (store : LeadStore) (i : String) (ud : List (String × JVal)) (v : JVal),
      isValidObjectId i = true →
      (List.lookup "status" ud = none ∨
        ∃ s, List.lookup "status" ud = some (JVal.str s) ∧ s ∈ validStatuses) →
      List.lookup "email" ud = some v → v.truthy = true →
      emailRegexTest v.toStr = false →
      (updateLead store (some i) (some ud)).1 = .error ⟨"Invalid email format", 400⟩) ∧
    (∀ (store : LeadStore) (i : String) (ud : List (String × JVal)),
      isValidObjectId i = true →
      List.lookup "status" ud = none → List.lookup "notes" ud = none →
      List.lookup "customerName" ud = none → List.lookup "email" ud = none →
      List.lookup "phone" ud = none →
      (updateLead store (some i) (some ud)).1 =
        .error ⟨"No valid fields to update", 400⟩) ∧
    (∀ (store : LeadStore) (i : String) (ud fd : List (String × JVal)),
      isValidObjectId i = true →
      validateUpdateFields allowedFields ud = .ok fd → fd.isEmpty = false →
      List.lookup i store = none →
      (updateLead store (some i) (some ud)).1 = .error ⟨"Lead not found", 404⟩) := by
  refine ⟨updateLead_error_store_unchanged, validateUpdateFields_ok_spec allowedFields,
    ?_, ?_, ?_, ?_, ?_⟩
  · intro s
    refine ⟨rfl, ?_⟩
    show (String.mk ((jsTrim s).data.take 1000)).length ≤ 1000
    have : (String.mk ((jsTrim s).data.take 1000)).length =
        ((jsTrim s).data.take 1000).length := rfl
    rw [this, List.length_take]
    exact min_le_left _ _
  · intro store i ud v hv hst hbad
    have hval := validateUpdateFields_bad_status ud v hst hbad
    simp [updateLead, updateLead_guard_false hv, hval]
  · intro store i ud v hv hst hem ht hr
    have he := validate_cons_email_bad ["phone"] ud v hem ht hr
    have hc := validate_cons_error "customerName" _ ud _ rfl rfl he
    have hn := validate_cons_error "notes" _ ud _ rfl rfl hc
    have hs : validateUpdateFields allowedFields ud =
        .error ⟨"Invalid email format", 400⟩ :=
      validate_cons_status_pass_error _ ud _ hst hn
    simp [updateLead, updateLead_guard_false hv, hs]
  · intro store i ud hv h1 h2 h3 h4 h5
    have hval : validateUpdateFields allowedFields ud = .ok [] := by
      show validateUpdateFields
        ("status" :: ["notes", "customerName", "email", "phone"]) ud = .ok []
      rw [validate_cons_skip _ _ _ h1, validate_cons_skip _ _ _ h2,
        validate_cons_skip _ _ _ h3, validate_cons_skip _ _ _ h4,
        validate_cons_skip _ _ _ h5]
      rfl
    simp [updateLead, updateLead_guard_false hv, hval]
  · intro store i ud fd hv hval hfd hlk
    simp [updateLead, updateLead_guard_false hv, hval, hfd, hlk]

/-- Claim C6 counterexample: an update supplying email as the empty
string succeeds and persists it, although the empty string fails the
email regex — so "fails when email fails the basic syntactic check" is
false as stated for the empty string. -/
theorem C6_counterexample :
    emailRegexTest "" = false ∧
    (updateLead [("aaaaaaaaaaaaaaaaaaaaaaaa",
        { platform := "snapchat", platformLeadId := "L1" })]
      (some "aaaaaaaaaaaaaaaaaaaaaaaa") (some [("email", JVal.str "")])).1 =
      .ok { platform := "snapchat", platformLeadId := "L1", email := some "" } :=
  ⟨rfl, rfl⟩

/-- Witness for C6_update_allow_list_amended at concrete inputs. -/
theorem C6_amended_witness :
    (updateLead [] (some "aaaaaaaaaaaaaaaaaaaaaaaa")
        (some [("status", JVal.str "archived")])).1 =
      .error ⟨invalidStatusMsg, 400⟩ ∧
    (updateLead [] (some "aaaaaaaaaaaaaaaaaaaaaaaa")
        (some [("status", JVal.str "archived")])).2 = [] ∧
    (updateLead [] (some "aaaaaaaaaaaaaaaaaaaaaaaa")
        (some [("email", JVal.str "not-an-email")])).1 =
      .error ⟨"Invalid email format", 400⟩ ∧
    (updateLead [] (some "aaaaaaaaaaaaaaaaaaaaaaaa") (some [])).1 =
      .error ⟨"No valid fields to update", 400⟩ ∧
    (updateLead [] (some "aaaaaaaaaaaaaaaaaaaaaaaa")
        (some [("notes", JVal.str "hi")])).1 = .error ⟨"Lead not found", 404⟩ := by
  have h1 := C6_update_allow_list_amended.2.2.2.1 [] "aaaaaaaaaaaaaaaaaaaaaaaa"
    [("status", JVal.str "archived")] (JVal.str "archived") (by decide) rfl (by decide)
  refine ⟨h1, C6_update_allow_list_amended.1 [] _ _ _ h1, ?_, ?_, ?_⟩
  · exact C6_update_allow_list_amended.2.2.2.2.1 [] "aaaaaaaaaaaaaaaaaaaaaaaa"
      [("email", JVal.str "not-an-email")] (JVal.str "not-an-email") (by decide)
      (Or.inl rfl) rfl (by decide) (by decide)
  · exact C6_update_allow_list_amended.2.2.2.2.2.1 [] "aaaaaaaaaaaaaaaaaaaaaaaa" []
      (by decide) rfl rfl rfl rfl rfl
  · exact C6_update_allow_list_amended.2.2.2.2.2.2 [] "aaaaaaaaaaaaaaaaaaaaaaaa"
      [("notes", JVal.str "hi")] [("notes", JVal.str "hi")] (by decide) rfl rfl rfl

/-- Claim C10: an update supplying email as the empty string skips the
email-format check (the guard tests truthiness before testing the
regex), so although the empty string fails the regex, validation
succeeds and the empty string is persisted as the lead's email. -/
theorem C10_empty_email_persisted
    (store : LeadStore) (i : String) (l : Lead) (ud : List (String × JVal))
    (hv : isValidObjectId i = true)
    (hl : List.lookup i store = some l)
    (hem : List.lookup "email" ud = some (JVal.str ""))
    (hst : List.lookup "status" ud = none ∨
      ∃ s, List.lookup "status" ud = some (JVal.str s) ∧ s ∈ validStatuses) :
    JVal.truthy (JVal.str "") = false ∧ emailRegexTest "" = false ∧
    ∃ l', (updateLead store (some i) (some ud)).1 = .ok l' ∧ l'.email = some "" := by
  refine ⟨rfl, rfl, ?_⟩
  obtain ⟨fd, hval, hfdne, hmail⟩ := validate_allowed_ok_email_empty ud hem hst
  refine ⟨applyUpdate l fd, ?_, hmail l⟩
  simp [updateLead, updateLead_guard_false hv, hval, hfdne, hl]

/-- Witness for C10_empty_email_persisted at concrete inputs. -/
theorem C10_witness :
    JVal.truthy (JVal.str "") = false ∧ emailRegexTest "" = false ∧
    ∃ l', (updateLead [("aaaaaaaaaaaaaaaaaaaaaaaa",
        { platform := "meta", platformLeadId := "M1", email := some "old@x.co" })]
      (some "aaaaaaaaaaaaaaaaaaaaaaaa")
      (some [("email", JVal.str ""), ("status", JVal.str "contacted")])).1 = .ok l' ∧
      l'.email = some "" :=
  C10_empty_email_persisted
    [("aaaaaaaaaaaaaaaaaaaaaaaa",
      { platform := "meta", platformLeadId := "M1", email := some "old@x.co" })]
    "aaaaaaaaaaaaaaaaaaaaaaaa"
    { platform := "meta", platformLeadId := "M1", email := some "old@x.co" }
    [("email", JVal.str ""), ("status", JVal.str "contacted")]
    (by decide) rfl rfl (Or.inr ⟨"contacted", rfl, by decide⟩)
